import Mathlib

/-!
# Verification of the OBJ/PPM mesh and texture decoders

Shallow embedding of `src/Assignment08_TexturedModelParser/part1/src/OBJMesh.cpp`
(the converged variant of `OBJMesh::LoadOBJ`, `OBJMesh::ParseVertexIndices`,
`OBJMesh::LoadMTL`, `OBJMesh::LoadTextures` at lines 241-460, and the
converged `TextureLoader::ReadImageData` with the flip post-processing pass
at lines 516-602) together with theorems settling the spec claims.

Modelling conventions, used throughout and noted at each definition:
* C++ `float` values are idealised as exact decimals: the decoder only
  parses, stores and copies them, so they are carried as the structural
  mantissa/exponent pair `FQ` whose meaning is `num / 10 ^ exp`; the one
  operation that computes with them — `glm::normalize` — is modelled over
  `ℝ` through that meaning.
* `std::istringstream` formatted extraction (`>>`) is modelled at
  whitespace-token granularity: each extraction takes the next
  whitespace-delimited token and parses a numeric prefix of it, failure
  setting a fail flag after which further extractions are no-ops, exactly as
  a failed stream behaves.  Values read while the stream is failed are
  indeterminate in C++ (uninitialised locals); the model uses 0 for them.
* `std::vector::operator[]` out of range is undefined behaviour in C++; the
  model returns a fixed default value at out-of-range indices.
* Console diagnostics (`std::cout`/`std::cerr`) and OpenGL calls are not
  modelled; the filesystem is a parameter mapping a path to the file's lines
  (for text files) or bytes (for the PPM stream).
-/

/-- Whitespace as recognised by C-locale `isspace`, used both by
`std::istringstream` token extraction and by `std::stoi`. -/
def isWsChar (c : Char) : Bool :=
  c.toNat = 32 || (9 ≤ c.toNat && c.toNat ≤ 13)

/-- Worker for `tokenize`: split on whitespace, accumulating the current
token in reverse. -/
def tokenizeGo : List Char → List Char → List String
  | [], cur => if cur.isEmpty then [] else [⟨cur.reverse⟩]
  | c :: r, cur =>
    if isWsChar c then
      if cur.isEmpty then tokenizeGo r [] else ⟨cur.reverse⟩ :: tokenizeGo r []
    else tokenizeGo r (c :: cur)

/-- Split a line into whitespace-delimited tokens, the way a chain of
`iss >> tok` extractions consumes an `std::istringstream` over the line. -/
def tokenize (s : String) : List String :=
  tokenizeGo s.toList []

/-- Numeric value of a list of decimal digit characters, most significant
first (used by the `std::stoi` and float-extraction models). -/
def digitsVal (ds : List Char) : Nat :=
  ds.foldl (fun acc c => 10 * acc + (c.toNat - 48)) 0

/-- Model of `std::stoi`: skip leading whitespace, optional sign, then the
longest run of decimal digits; trailing characters are ignored.  `none`
models the `std::invalid_argument` exception thrown when no digits are
found (uncaught in this program, so the process aborts). -/
def stoiPref (cs : List Char) : Option Int :=
  let cs1 := cs.dropWhile (fun c => isWsChar c)
  let (neg, cs2) : Bool × List Char :=
    match cs1 with
    | '-' :: r => (true, r)
    | '+' :: r => (false, r)
    | r => (false, r)
  let ds := cs2.takeWhile (fun c => c.isDigit)
  if ds.isEmpty then none
  else some (if neg then -(digitsVal ds : Int) else (digitsVal ds : Int))

/-- A parsed `float` value, idealised as the exact decimal it was written
as: the pair denotes `num / 10 ^ exp`.  The mesh decoder never computes
with the floats it stores — it only parses, stores and copies them — so
this exact structural representation is a faithful value carrier; its
numeric meaning is given by `FQ.toQ`/`FQ.toR` below. -/
structure FQ where
  num : Int
  exp : Nat
deriving DecidableEq, Repr

/-- Rational meaning of a parsed float value. -/
def FQ.toQ (q : FQ) : ℚ := (q.num : ℚ) / (10 : ℚ) ^ q.exp

/-- Real meaning of a parsed float value. -/
noncomputable def FQ.toR (q : FQ) : ℝ := (q.num : ℝ) / (10 : ℝ) ^ q.exp

/-- The value 0 (also standing in for the indeterminate contents of
uninitialised C++ locals and undefined-behaviour reads, see the header). -/
def FQ.zero : FQ := ⟨0, 0⟩

/-- Model of formatted `float` extraction applied to one token: optional
sign, integer digits, optional fraction digits after a decimal point; at
least one digit is required, trailing characters are ignored (as `num_get`
stops at the first character that cannot extend the number).  Scientific
notation is not used by any input considered here and is not modelled.
The parsed value is the exact decimal `⟨±(I·10^k + F), k⟩` for integer
part `I` and `k` fraction digits `F`. -/
def parseFloatTok (s : String) : Option FQ :=
  let cs := s.toList
  let (neg, cs1) : Bool × List Char :=
    match cs with
    | '-' :: r => (true, r)
    | '+' :: r => (false, r)
    | r => (false, r)
  let ipart := cs1.takeWhile (fun c => c.isDigit)
  let rest := cs1.dropWhile (fun c => c.isDigit)
  let fpart :=
    match rest with
    | '.' :: r => r.takeWhile (fun c => c.isDigit)
    | _ => []
  if ipart.isEmpty && fpart.isEmpty then none
  else
    let mag : Int := digitsVal ipart * 10 ^ fpart.length + digitsVal fpart
    some ⟨if neg then -mag else mag, fpart.length⟩

section MeshModel

/-- 3-component float tuple (`glm::vec3`). -/
abbrev Vec3Q := FQ × FQ × FQ

/-- 2-component float tuple (`glm::vec2`). -/
abbrev Vec2Q := FQ × FQ

/-- The flattened per-corner attribute record (`struct Vertex` in
`OBJMesh.hpp`): position, colour, normal, texture coordinates. -/
structure MVertex where
  x : FQ
  y : FQ
  z : FQ
  r : FQ
  g : FQ
  b : FQ
  nx : FQ
  ny : FQ
  nz : FQ
  s : FQ
  t : FQ
deriving DecidableEq, Repr

/-- `struct Triangle`: exactly three vertices. -/
structure MTriangle where
  v0 : MVertex
  v1 : MVertex
  v2 : MVertex
deriving DecidableEq, Repr

/-- `struct Material`: a name and a diffuse-texture relative path. -/
structure MMaterial where
  name : String
  diffuseTexture : String
deriving DecidableEq, Repr

/-- The `OBJMesh` object state: the three attribute pools, the triangle
list, the tracked material, the deferred texture path and the GL texture
id (`m_textureID`, a plain number here since GL is not modelled). -/
structure MeshState where
  positions : List Vec3Q
  normals : List Vec3Q
  texCoords : List Vec2Q
  triangles : List MTriangle
  material : MMaterial
  pendingTexturePath : String
  textureID : Nat
deriving DecidableEq, Repr

/-- Model of `std::vector<glm::vec3>::operator[]` with an `int` index:
in-range access returns the element; any other index (negative or past the
end) is undefined behaviour in C++, modelled by a fixed default value. -/
def vecAt3 (l : List Vec3Q) (i : Int) : Vec3Q :=
  if h : 0 ≤ i ∧ i.toNat < l.length then l.get ⟨i.toNat, h.2⟩
  else (FQ.zero, FQ.zero, FQ.zero)

/-- Model of `std::vector<glm::vec2>::operator[]`; same conventions as
`vecAt3`. -/
def vecAt2 (l : List Vec2Q) (i : Int) : Vec2Q :=
  if h : 0 ≤ i ∧ i.toNat < l.length then l.get ⟨i.toNat, h.2⟩
  else (FQ.zero, FQ.zero)

/-- Index of the first occurrence of `/` in the character list at position
`≥ start`, i.e. `std::string::find('/', start)`; `none` is `npos`. -/
def findSlashFrom (cs : List Char) (start : Nat) : Option Nat :=
  match cs.drop start |>.findIdx? (fun c => c = '/') with
  | some k => some (start + k)
  | none => none

/-- `OBJMesh::ParseVertexIndices` (OBJMesh.cpp lines 337-359) before the
texture-coordinate clamp: splits a face-vertex token on `/` and converts
the 1-based indices to 0-based.

Faithful details of the C++:
* no slash: return `{stoi(s) - 1, 0, 0}` immediately;
* `slash2 = find('/', slash1+1)` may be `npos`; then
  `vtStr = substr(slash1+1, npos - slash1 - 1)` clamps to the rest of the
  string, and `vnStr = substr(npos + 1)`: `npos + 1` wraps to `0` in
  `size_t` arithmetic, so `vnStr` is the **whole token** — the
  `vnStr.empty()` default branch is then unreachable and the normal index
  is re-parsed from the start of the token;
* `none` models an uncaught `std::invalid_argument` from `std::stoi`. -/
def ParseVertexIndicesRaw (vertexStr : String) : Option (Int × Int × Int) :=
  let cs := vertexStr.toList
  match findSlashFrom cs 0 with
  | none => (stoiPref cs).map (fun v => (v - 1, 0, 0))
  | some slash1 =>
    let slash2? := findSlashFrom cs (slash1 + 1)
    let vStr := cs.take slash1
    let vtStr :=
      match slash2? with
      | none => cs.drop (slash1 + 1)
      | some slash2 => (cs.drop (slash1 + 1)).take (slash2 - slash1 - 1)
    let vnStr :=
      match slash2? with
      | none => cs
      | some slash2 => cs.drop (slash2 + 1)
    match stoiPref vStr with
    | none => none
    | some v =>
      let vt? : Option Int :=
        if vtStr.isEmpty then some 0 else (stoiPref vtStr).map (fun n => n - 1)
      let vn? : Option Int :=
        if vnStr.isEmpty then some 0 else (stoiPref vnStr).map (fun n => n - 1)
      match vt?, vn? with
      | some vt, some vn => some (v - 1, vt, vn)
      | _, _ => none

/-- The clamp at the end of `OBJMesh::ParseVertexIndices` (lines 353-357):
`if (vtIdx >= texCoords.size())` compares the `int` index against a
`size_t`, so a negative index converts to a huge unsigned value and is
also clamped; the index is replaced by 0 and a diagnostic is printed
(diagnostics are not modelled).  Only the texture-coordinate index is
checked; position and normal indices are not. -/
def clampVt (texCoordsLen : Nat) (vt : Int) : Int :=
  if vt < 0 ∨ texCoordsLen ≤ vt.toNat then 0 else vt

/-- `OBJMesh::ParseVertexIndices` (lines 337-359): raw index extraction
followed by the texture-coordinate clamp.  The no-slash early return
carries `vt = 0`, on which the clamp is the identity, so factoring the
clamp over all paths is equivalent to the C++ control flow. -/
def ParseVertexIndices (texCoordsLen : Nat) (vertexStr : String) :
    Option (Int × Int × Int) :=
  (ParseVertexIndicesRaw vertexStr).map
    (fun p => (p.1, clampVt texCoordsLen p.2.1, p.2.2))

end MeshModel

section MeshDecoder

/-- State of a chain of formatted extractions from one `istringstream`:
the tokens not yet consumed and the fail flag.  Once the stream has
failed, every further extraction is a no-op. -/
structure ExtrSt where
  toks : List String
  failed : Bool
deriving DecidableEq, Repr

/-- One `iss >> f` float extraction (`f` a `float`).  On a parse failure
or end-of-input the extracted value is 0 (C++11 zeroes the target on
failure) and the fail flag is set; on an already-failed stream the
extraction is a no-op and the C++ target keeps its previous, possibly
indeterminate, value — modelled as 0. -/
def readQ (st : ExtrSt) : FQ × ExtrSt :=
  if st.failed then (FQ.zero, st)
  else
    match st.toks with
    | [] => (FQ.zero, { st with failed := true })
    | t :: r =>
      match parseFloatTok t with
      | some q => (q, { toks := r, failed := false })
      | none => (FQ.zero, { st with failed := true })

/-- One `iss >> s` string extraction.  `none` means the extraction failed
(the C++ target string then keeps its previous value). -/
def readTok (st : ExtrSt) : Option String × ExtrSt :=
  if st.failed then (none, st)
  else
    match st.toks with
    | [] => (none, { st with failed := true })
    | t :: r => (some t, { toks := r, failed := false })

/-- A filesystem of text files: maps a path to the file's lines, `none`
when the file cannot be opened. -/
abbrev TextFS := String → Option (List String)

/-- Directory prefix of a path, as computed at OBJMesh.cpp lines 271-273
and 449-451: everything up to and including the last `/` or `\`, or the
empty string when neither occurs (`find_last_of("/\\")`). -/
def directoryOf (path : String) : String :=
  let cs := path.toList
  match (cs.reverse.findIdx? (fun c => c = '/' ∨ c = '\\')) with
  | some k => ⟨cs.take (cs.length - k)⟩
  | none => ""

/-- One line of `OBJMesh::LoadMTL` (lines 437-456): `newmtl` records the
material name; `map_Kd` records the diffuse texture name and stores the
deferred texture path, resolved against the MTL file's own directory.
A failed token extraction leaves the target member unchanged. -/
def processMTLLine (mtlPath : String) (st : MeshState) (line : String) :
    MeshState :=
  let toks := tokenize line
  let tk := toks.getD 0 ""
  if tk = "newmtl" then
    let nm := match toks.get? 1 with
      | some t => t
      | none => st.material.name
    { st with material := { st.material with name := nm } }
  else if tk = "map_Kd" then
    let dt := match toks.get? 1 with
      | some t => t
      | none => st.material.diffuseTexture
    let directory := directoryOf mtlPath
    { st with
      material := { st.material with diffuseTexture := dt },
      pendingTexturePath := directory ++ dt }
  else st

/-- `OBJMesh::LoadMTL` (lines 426-460): open the MTL file (failure returns
`false` with the state unchanged) and fold the line dispatch over its
lines.  This variant only records the deferred texture path; it does not
load the texture. -/
def LoadMTL (fs : TextFS) (filename : String) (st : MeshState) :
    Bool × MeshState :=
  match fs filename with
  | none => (false, st)
  | some lines => (true, lines.foldl (processMTLLine filename) st)

/-- The fixed placeholder base colour `0.7f, 0.7f, 0.7f` baked into every
vertex (lines 305, 312, 319). -/
def defaultColor : FQ := ⟨7, 1⟩

/-- Materialise one corner `Vertex` from resolved indices (lines 303-322):
position, normal and texture-coordinate pools are indexed with plain
`operator[]` (only the texture index was clamped beforehand). -/
def mkVertex (st : MeshState) (v vt vn : Int) : MVertex :=
  let p := vecAt3 st.positions v
  let n := vecAt3 st.normals vn
  let tc := vecAt2 st.texCoords vt
  { x := p.1, y := p.2.1, z := p.2.2
    r := defaultColor, g := defaultColor, b := defaultColor
    nx := n.1, ny := n.2.1, nz := n.2.2
    s := tc.1, t := tc.2 }

/-- One line of `OBJMesh::LoadOBJ`'s while loop (lines 263-327).  The
accumulator carries the mesh state and the loop-external `mtlFile`
variable (declared once before the loop, so a failed `mtllib` extraction
keeps its previous value).  `none` models an uncaught `std::stoi`
exception inside `ParseVertexIndices` (the process aborts). -/
def processLine (fs : TextFS) (objName : String)
    (acc : MeshState × String) (line : String) :
    Option (MeshState × String) :=
  let (st, mtlFile) := acc
  let toks := tokenize line
  let tk := toks.getD 0 ""
  if tk = "mtllib" then
    let mtl := match toks.get? 1 with
      | some t => t
      | none => mtlFile
    let directory := directoryOf objName
    some ((LoadMTL fs (directory ++ mtl) st).2, mtl)
  else if tk = "v" then
    let e0 : ExtrSt := ⟨toks.drop 1, false⟩
    let (x, e1) := readQ e0
    let (y, e2) := readQ e1
    let (z, _) := readQ e2
    some ({ st with positions := st.positions ++ [(x, y, z)] }, mtlFile)
  else if tk = "vn" then
    let e0 : ExtrSt := ⟨toks.drop 1, false⟩
    let (nx, e1) := readQ e0
    let (ny, e2) := readQ e1
    let (nz, _) := readQ e2
    -- The C++ pushes `glm::normalize(glm::vec3(nx, ny, nz))` (line 285).
    -- Normalisation has no exact representation, so the embedding stores
    -- the parsed vector and interprets the stored float entry through
    -- `realNormalize` below; normalising at push time and normalising the
    -- stored raw vectors agree entry by entry.
    some ({ st with normals := st.normals ++ [(nx, ny, nz)] }, mtlFile)
  else if tk = "vt" then
    let e0 : ExtrSt := ⟨toks.drop 1, false⟩
    let (s, e1) := readQ e0
    let (t, _) := readQ e1
    -- This converged variant (lines 288-292) pushes the pair unmodified;
    -- the earlier variant at line 66 pushed `vec2(s, 1.0f - t)` instead.
    some ({ st with texCoords := st.texCoords ++ [(s, t)] }, mtlFile)
  else if tk = "f" then
    let e0 : ExtrSt := ⟨toks.drop 1, false⟩
    let (t1?, e1) := readTok e0
    let (t2?, e2) := readTok e1
    let (t3?, _) := readTok e2
    let vertex1 := t1?.getD ""
    let vertex2 := t2?.getD ""
    let vertex3 := t3?.getD ""
    match ParseVertexIndices st.texCoords.length vertex1,
          ParseVertexIndices st.texCoords.length vertex2,
          ParseVertexIndices st.texCoords.length vertex3 with
    | some (v1, vt1, vn1), some (v2, vt2, vn2), some (v3, vt3, vn3) =>
      let tri : MTriangle :=
        { v0 := mkVertex st v1 vt1 vn1
          v1 := mkVertex st v2 vt2 vn2
          v2 := mkVertex st v3 vt3 vn3 }
      some ({ st with triangles := st.triangles ++ [tri] }, mtlFile)
    | _, _, _ => none
  else
    some (st, mtlFile)

/-- Fold of `processLine` over the file's lines, propagating an abort. -/
def processLines (fs : TextFS) (objName : String) :
    List String → MeshState × String → Option (MeshState × String)
  | [], acc => some acc
  | l :: ls, acc =>
    match processLine fs objName acc l with
    | none => none
    | some acc2 => processLines fs objName ls acc2

/-- `OBJMesh::LoadOBJ` (lines 241-335): open the file (failure returns
`false` with the state untouched), clear the three pools and the triangle
list (lines 252-255; the material, deferred path and texture id are *not*
cleared), then fold the line dispatch.  The outer `none` models an abort
(uncaught exception); otherwise the returned flag is the C++ return
value, which is `true` on every path after a successful open. -/
def LoadOBJ (fs : TextFS) (filename : String) (st : MeshState) :
    Option (Bool × MeshState) :=
  match fs filename with
  | none => some (false, st)
  | some lines =>
    let cleared : MeshState :=
      { st with positions := [], normals := [], texCoords := [], triangles := [] }
    (processLines fs filename lines (cleared, "")).map (fun acc => (true, acc.1))

/-- `OBJMesh::LoadTextures` (lines 361-372): if a deferred texture path is
pending, load it (`TextureLoader::LoadPPM`, modelled by the `load`
parameter returning a texture id, 0 on failure); a failed load returns
`false` with the path still pending, a successful load records the id and
clears the path; with no pending path the call is a no-op returning
`true`. -/
def LoadTextures (load : String → Nat) (st : MeshState) : Bool × MeshState :=
  if st.pendingTexturePath ≠ "" then
    let id := load st.pendingTexturePath
    if id = 0 then (false, { st with textureID := id })
    else (true, { st with textureID := id, pendingTexturePath := "" })
  else (true, st)

/-- `OBJMesh::GetTriangleCount` (lines 422-424). -/
def GetTriangleCount (st : MeshState) : Nat := st.triangles.length

end MeshDecoder

section ImageDecoder

/-- An `std::ifstream` opened in binary mode over the PPM file's bytes:
the already-consumed bytes in reverse (so `unget` can restore one), the
remaining bytes, and the fail flag.  Once failed, every read is a no-op. -/
structure PStream where
  before : List Nat
  after : List Nat
  failbit : Bool
deriving DecidableEq, Repr

/-- `file.get(c)`: extract one byte; at end-of-stream the fail flag is set
and no byte is produced. -/
def psGet (s : PStream) : Option Nat × PStream :=
  if s.failbit then (none, s)
  else
    match s.after with
    | [] => (none, { s with failbit := true })
    | b :: r => (some b, ⟨b :: s.before, r, false⟩)

/-- `file.unget()`: push the last consumed byte back; a no-op on a failed
stream (the sentry fails). -/
def psUnget (s : PStream) : PStream :=
  if s.failbit then s
  else
    match s.before with
    | [] => s
    | b :: r => ⟨r, b :: s.after, false⟩

/-- C-locale whitespace on bytes, as skipped by formatted extraction. -/
def isWsByte (b : Nat) : Bool :=
  b = 32 || (9 ≤ b && b ≤ 13)

/-- Consume the leading formatted-extraction whitespace run. -/
def skipWsGo : List Nat → List Nat → List Nat × List Nat
  | bef, [] => (bef, [])
  | bef, b :: r => if isWsByte b then skipWsGo (b :: bef) r else (bef, b :: r)

/-- Collect the non-whitespace token run for `file >> std::string`. -/
def takeTokGo : List Nat → List Nat → List Nat → List Nat × List Nat × List Nat
  | tok, bef, [] => (tok.reverse, bef, [])
  | tok, bef, b :: r =>
    if isWsByte b then (tok.reverse, bef, b :: r)
    else takeTokGo (b :: tok) (b :: bef) r

/-- `file >> s` for `std::string s`: skip whitespace, then the maximal
non-whitespace run; `none` (with the fail flag set) when the stream is
already failed or only whitespace remains — the C++ target string then
keeps its previous value. -/
def psReadStr (s : PStream) : Option (List Nat) × PStream :=
  if s.failbit then (none, s)
  else
    let (bef1, aft1) := skipWsGo s.before s.after
    match aft1 with
    | [] => (none, ⟨bef1, [], true⟩)
    | _ =>
      let (tok, bef2, aft2) := takeTokGo [] bef1 aft1
      (some tok, ⟨bef2, aft2, false⟩)

/-- Collect the maximal run of decimal-digit bytes. -/
def takeDigitsGo : List Nat → List Nat → List Nat → List Nat × List Nat × List Nat
  | ds, bef, [] => (ds.reverse, bef, [])
  | ds, bef, b :: r =>
    if 48 ≤ b ∧ b ≤ 57 then takeDigitsGo (b :: ds) (b :: bef) r
    else (ds.reverse, bef, b :: r)

/-- Numeric value of a run of decimal-digit bytes. -/
def digitBytesVal (ds : List Nat) : Nat :=
  ds.foldl (fun acc b => 10 * acc + (b - 48)) 0

/-- `file >> n` for `int n`: skip whitespace, optional sign, then the
longest digit run; with no digit the extraction fails, the target is
zeroed (C++11) and the fail flag is set.  On an already-failed stream the
extraction is a no-op and the C++ target keeps its previous, possibly
indeterminate, value — modelled as 0. -/
def psReadInt (s : PStream) : Int × PStream :=
  if s.failbit then (0, s)
  else
    let (bef1, aft1) := skipWsGo s.before s.after
    let (neg, bef2, aft2) : Bool × List Nat × List Nat :=
      match aft1 with
      | 45 :: r => (true, 45 :: bef1, r)
      | 43 :: r => (false, 43 :: bef1, r)
      | r => (false, bef1, r)
    let (ds, bef3, aft3) := takeDigitsGo [] bef2 aft2
    if ds.isEmpty then (0, ⟨bef3, aft3, true⟩)
    else
      let v : Int := digitBytesVal ds
      (if neg then -v else v, ⟨bef3, aft3, false⟩)

/-- The whitespace characters the hand-written comment-skip loop at
ReadImageData lines 536-541 recognises: space, `\n`, `\r` (and only
those). -/
def isWs3 (b : Nat) : Bool := b = 32 || b = 10 || b = 13

/-- The loop `while (file.get(c) && (c == ' ' || c == '\n' || c == '\r'));`
— consume a run of those three characters and return the first other byte
(consumed), or `none` at end-of-stream (fail flag set by the failing
`get`). -/
def skipWs3Go : List Nat → List Nat → Option Nat × List Nat × List Nat
  | bef, [] => (none, bef, [])
  | bef, b :: r =>
    if isWs3 b then skipWs3Go (b :: bef) r else (some b, b :: bef, r)

/-- The loop `while (file.get(c) && c != '\n');` — consume up to and
including the next newline; `none` at end-of-stream. -/
def skipToNlGo : List Nat → List Nat → Option Nat × List Nat × List Nat
  | bef, [] => (none, bef, [])
  | bef, b :: r =>
    if b = 10 then (some b, b :: bef, r) else skipToNlGo (b :: bef) r

/-- The comment loop `while (c == '#') { ... }` (lines 538-541): skip the
rest of the comment line, then the following space/newline run, and
repeat while the next character is `#` again.  Each genuine iteration
consumes at least the `#` byte, so the remaining stream length bounds the
iteration count; the fuel-exhaustion branch corresponds to the one input
shape (`#` with the stream already at its end) on which the C++ loop
never terminates, modelled as a failed stream. -/
def commentLoop : Nat → Nat → List Nat → List Nat → Option Nat × List Nat × List Nat
  | 0, _, bef, aft => (none, bef, aft)
  | n + 1, c, bef, aft =>
    if c = 35 then
      match skipToNlGo bef aft with
      | (_, bef1, aft1) =>
        match skipWs3Go bef1 aft1 with
        | (none, bef2, aft2) => (none, bef2, aft2)
        | (some c2, bef2, aft2) => commentLoop n c2 bef2 aft2
    else (some c, bef, aft)

/-- `file.read(buf, n)`: take `n` bytes; a short read copies what is
available, leaves the rest of the buffer as allocated (junk, modelled 0)
and sets the fail flag.  A read on an already-failed stream is a no-op
leaving the whole buffer junk. -/
def psReadBytes (s : PStream) (n : Nat) : List Nat × PStream :=
  if s.failbit then (List.replicate n 0, s)
  else if n ≤ s.after.length then
    (s.after.take n, ⟨(s.after.take n).reverse ++ s.before, s.after.drop n, false⟩)
  else
    (s.after ++ List.replicate (n - s.after.length) 0,
     ⟨s.after.reverse ++ s.before, [], true⟩)

/-- The ASCII sample loop (lines 572-577): `width*height*3` iterations of
`file >> value; copyData[i] = static_cast<unsigned char>(value);`.  The
cast keeps the value modulo 256; iterations on a failed stream store the
indeterminate `value` local, modelled 0. -/
def readAsciiSamples (s : PStream) : Nat → List Nat × PStream
  | 0 => ([], s)
  | n + 1 =>
    let (v, s1) := psReadInt s
    let b := (v % 256).toNat
    let (rest, s2) := readAsciiSamples s1 n
    (b :: rest, s2)

/-- The flip-and-swap post-processing loop of the converged
`TextureLoader::ReadImageData` (lines 583-590):

    unsigned int pos = (width * height * 3) - 1;
    for (int i = 0; i < width * height * 3; i += 3) {
        data[pos] = copyData[i + 2];
        data[pos - 1] = copyData[i + 1];
        data[pos - 2] = copyData[i];
        pos -= 3;
    }

modelled index-exactly over the destination list (reads past the source
end, possible only when the length is not a multiple of 3, yield the
allocation junk value 0).  The first argument is structural-recursion
fuel bounding the iteration count; since `i` advances by 3 per
iteration, `src.length` units of fuel always cover the whole loop, and
`flipSwap` below supplies exactly that. -/
def flipSwapGo (src : List Nat) : Nat → Nat → List Nat → List Nat
  | 0, _, out => out
  | fuel + 1, i, out =>
    if i < src.length then
      let pos := src.length - 1 - i
      flipSwapGo src fuel (i + 3)
        (((out.set pos (src.getD (i + 2) 0)).set (pos - 1) (src.getD (i + 1) 0)).set
          (pos - 2) (src.getD i 0))
    else out

/-- The whole post-processing pass: the destination buffer is a fresh
allocation of the same size (junk modelled 0), then the loop above. -/
def flipSwap (src : List Nat) : List Nat :=
  flipSwapGo src src.length 0 (List.replicate src.length 0)

/-- The byte list of the token `P3`. -/
def magicP3 : List Nat := [80, 51]

/-- The byte list of the token `P6`. -/
def magicP6 : List Nat := [80, 54]

/-- `TextureLoader::ReadImageData` (converged variant, lines 516-602) over
the opened file's bytes (`none` when the file cannot be opened): read the
magic token, run the comment/whitespace skip and `unget`, read width,
height and max colour value, reject a depth over 255, consume the single
whitespace byte after the max value in binary mode, read the raw samples
(binary `read` or the ASCII loop), run the flip pass, and finally discard
everything if the stream has failed (`if (file.fail())` at line 594 —
`data` is deleted and reset to null, modelled by `none`).

`width*height*3` is computed in `int`; a negative value makes
`new unsigned char[...]` convert it to an enormous `size_t` and the
program dies on `std::bad_alloc`, modelled as `none`.

This first piece is the whitespace-and-comment skipping block (lines
536-541): the space/newline run, then the comment loop; when either loop
runs off the end of the stream the failing `get` sets the fail flag and
the locally read character is junk (never `#`), after which execution
falls through to the dimension reads with a failed stream. -/
def skipBlock (s : PStream) : PStream :=
  if s.failbit then s
  else
    match skipWs3Go s.before s.after with
    | (none, bef, aft) => ⟨bef, aft, true⟩
    | (some c, bef, aft) =>
      match commentLoop (aft.length + 1) c bef aft with
      | (none, bef2, aft2) => ⟨bef2, aft2, true⟩
      | (some _, bef2, aft2) => ⟨bef2, aft2, false⟩

/-- See the doc comment above `skipBlock`; continuation of
`TextureLoader::ReadImageData`. -/
def ReadImageData (file? : Option (List Nat)) : Option (Int × Int × List Nat) :=
  match file? with
  | none => none
  | some bytes =>
    let s0 : PStream := ⟨[], bytes, false⟩
    let r1 := psReadStr s0
    let magic := r1.1.getD []
    if magic ≠ magicP3 ∧ magic ≠ magicP6 then none
    else
      let isBinary := magic = magicP6
      let s3 := psUnget (skipBlock r1.2)
      let r4 := psReadInt s3
      let width := r4.1
      let r5 := psReadInt r4.2
      let height := r5.1
      let r6 := psReadInt r5.2
      let maxColorValue := r6.1
      if maxColorValue > 255 then none
      else
        let s7 := if isBinary then (psGet r6.2).2 else r6.2
        let total : Int := width * height * 3
        if total < 0 then none
        else
          let totalN := total.toNat
          let r8 :=
            if isBinary then psReadBytes s7 totalN
            else readAsciiSamples s7 totalN
          let data := flipSwap r8.1
          if r8.2.failbit then none
          else some (width, height, data)

end ImageDecoder

section RealNormal

/-- Squared Euclidean length of a real 3-vector (`glm::dot(v, v)`). -/
def norm2R (v : ℝ × ℝ × ℝ) : ℝ :=
  v.1 ^ 2 + v.2.1 ^ 2 + v.2.2 ^ 2

/-- `glm::normalize` over the reals: divide by the Euclidean length. -/
noncomputable def glmNormalize (v : ℝ × ℝ × ℝ) : ℝ × ℝ × ℝ :=
  let s := Real.sqrt (norm2R v)
  (v.1 / s, v.2.1 / s, v.2.2 / s)

/-- Real interpretation of a stored normal-pool entry: the C++ pushes
`glm::normalize(vec3(nx, ny, nz))` at line 285; the embedding keeps the
parsed vector in the pool, so the float value the C++ pool holds is the
normalisation of the entry's real image. -/
noncomputable def realNormalize (v : Vec3Q) : ℝ × ℝ × ℝ :=
  glmNormalize (v.1.toR, v.2.1.toR, v.2.2.toR)

end RealNormal

section Examples

/-- A freshly constructed `OBJMesh` object (`OBJMesh::OBJMesh()` zeroes
`m_textureID`; the vectors and strings default-construct empty). -/
def emptyMesh : MeshState :=
  { positions := [], normals := [], texCoords := [], triangles := []
    material := { name := "", diffuseTexture := "" }
    pendingTexturePath := "", textureID := 0 }

end Examples

/-- C1: for the face-vertex grammar `v | v/vt | v//vn | v/vt/vn` the claim
says every absent or empty slot yields index 0.  For a one-slash token
`v/vt` the code instead re-parses the whole token as the normal string
(`substr(npos + 1)` wraps around to `substr(0)`), so the normal index
comes out as the position value minus one: `ParseVertexIndices` on `3/7`
(with 7 texture coordinates in the pool, so no clamping interferes)
returns position index 2, texture index 6 and normal index 2 — not 0. -/
theorem C1_slash_token_normal_not_defaulted :
    ParseVertexIndices 7 "3/7" = some (2, 6, 2) ∧ ((2 : Int) = 0 → False) := by
  constructor
  · decide
  · decide

/-- C5: a face-vertex token whose texture-coordinate slot decodes (after
the 1-based decrement) to an index outside the texture-coordinate pool —
negative, or at least the pool size, since the `int`-vs-`size_t`
comparison at line 354 also catches negatives — does not fail the parse:
the texture index is clamped to 0 and the position and normal indices are
returned unchanged, so decoding continues.  (The accompanying `std::cerr`
diagnostic is outside the model.) -/
theorem C5_texcoord_out_of_range_clamped (len : Nat) (s : String)
    (v vt vn : Int) (hraw : ParseVertexIndicesRaw s = some (v, vt, vn))
    (hoob : vt < 0 ∨ len ≤ vt.toNat) :
    ParseVertexIndices len s = some (v, 0, vn) := by
  unfold ParseVertexIndices clampVt
  rw [hraw]
  simp [if_pos hoob]

/-- Witness for C5 at the concrete token `1/100/1` against a pool of two
texture coordinates: the raw texture index 99 is out of range and is
clamped to 0. -/
theorem C5_witness :
    ParseVertexIndicesRaw "1/100/1" = some (0, 99, 0) ∧
    ParseVertexIndices 2 "1/100/1" = some (0, 0, 0) :=
  ⟨by decide,
   C5_texcoord_out_of_range_clamped 2 "1/100/1" 0 99 0 (by decide)
     (Or.inr (by decide))⟩

/-- C6: a `vt` line whose two numeric fields parse appends exactly the
parsed pair to the texture-coordinate pool — in particular the second
component is stored as parsed, not flipped to `1 - t` (the superseded
variant at line 66 flips; the converged decoder at lines 288-292 does
not). -/
theorem C6_vt_appended_unmodified (fs : TextFS) (objName : String)
    (st : MeshState) (mtlFile : String) (line : String)
    (t1 t2 : String) (rest : List String) (q1 q2 : FQ)
    (htok : tokenize line = "vt" :: t1 :: t2 :: rest)
    (h1 : parseFloatTok t1 = some q1) (h2 : parseFloatTok t2 = some q2) :
    processLine fs objName (st, mtlFile) line =
      some ({ st with texCoords := st.texCoords ++ [(q1, q2)] }, mtlFile) := by
  unfold processLine
  rw [htok]
  simp [readQ, h1, h2]

/-- Witness for C6: the line `vt 0.5 0.25` appends exactly the parsed
pair (denoting `(1/2, 1/4)`); and the stored second component `1/4`
differs from the flipped value `1 - 1/4`, so the stored value is visibly
the unflipped one. -/
theorem C6_witness :
    processLine (fun _ => none) "m.obj" (emptyMesh, "") "vt 0.5 0.25" =
      some ({ emptyMesh with texCoords := [(⟨5, 1⟩, ⟨25, 2⟩)] }, "") ∧
    (FQ.toQ ⟨25, 2⟩ = 1 - FQ.toQ ⟨25, 2⟩ → False) := by
  constructor
  · have h := C6_vt_appended_unmodified (fun _ => none) "m.obj" emptyMesh ""
      "vt 0.5 0.25" "0.5" "0.25" [] ⟨5, 1⟩ ⟨25, 2⟩ (by decide) (by decide) (by decide)
    simpa using h
  · intro h
    rw [show FQ.toQ ⟨25, 2⟩ = 1/4 by norm_num [FQ.toQ]] at h
    norm_num at h

/-- C8: once a pending texture path is consumed by a successful
`LoadTextures` call the deferred state is cleared, and every subsequent
call — whatever its loader would return — finds no pending path, loads
nothing (the result does not depend on the loader at all) and returns
success with the state unchanged. -/
theorem C8_load_textures_idempotent (load load2 : String → Nat)
    (st : MeshState) (hpend : st.pendingTexturePath ≠ "")
    (hok : load st.pendingTexturePath ≠ 0) :
    (LoadTextures load st).1 = true ∧
    (LoadTextures load st).2.pendingTexturePath = "" ∧
    LoadTextures load2 (LoadTextures load st).2 =
      (true, (LoadTextures load st).2) := by
  unfold LoadTextures
  simp [if_pos hpend, hok]

/-- Witness for C8 at a concrete pending state and loaders: the first
load succeeds and clears the path, the second call (with a different
loader) is the no-op success. -/
theorem C8_witness :
    (LoadTextures (fun _ => 5) { emptyMesh with pendingTexturePath := "t.ppm" }).1 = true ∧
    (LoadTextures (fun _ => 5) { emptyMesh with pendingTexturePath := "t.ppm" }).2.pendingTexturePath = "" ∧
    LoadTextures (fun _ => 7)
        (LoadTextures (fun _ => 5) { emptyMesh with pendingTexturePath := "t.ppm" }).2 =
      (true, (LoadTextures (fun _ => 5) { emptyMesh with pendingTexturePath := "t.ppm" }).2) :=
  C8_load_textures_idempotent (fun _ => 5) (fun _ => 7)
    { emptyMesh with pendingTexturePath := "t.ppm" } (by decide) (by decide)

/-- C3 counterexample input: a mesh file whose single line is
`v 1.0 abc 3.0` — the second numeric field is non-numeric. -/
def fsMalformed : TextFS :=
  fun p => if p = "m.obj" then some ["v 1.0 abc 3.0"] else none

/-- C3 counterexample: the claim says a malformed numeric field fails the
decode with `MalformedLine` and leaves the position pool without the
partially-parsed entry.  On `v 1.0 abc 3.0` the decoder instead returns
success, and the position pool *does* contain the partially-parsed entry
(x parsed as 1.0; the failed second extraction zeroes y and the third is
a no-op on the failed stream, leaving z indeterminate, modelled 0): the
pool has length 1, not 0. -/
theorem C3_cex :
    LoadOBJ fsMalformed "m.obj" emptyMesh =
      some (true, { emptyMesh with positions := [(⟨10, 1⟩, FQ.zero, FQ.zero)] }) ∧
    (({ emptyMesh with positions := [(⟨10, 1⟩, FQ.zero, FQ.zero)] } : MeshState).positions.length = 0 → False) := by
  constructor
  · decide
  · decide

/-- C3 amended: the decoder performs no numeric validation.  On a `v`
line whose first field parses and whose second does not, the failed
extraction zeroes the second value and fails the stream, the third
extraction is a no-op (its C++ target stays indeterminate, modelled 0),
and the partially-parsed entry is appended to the position pool; the
line is processed without any error, so the decode continues and
succeeds — no `MalformedLine` failure exists in the code. -/
theorem C3_amended_partial_entry_appended (fs : TextFS) (objName : String)
    (st : MeshState) (mtlFile : String) (line : String)
    (t1 t2 : String) (rest : List String) (q1 : FQ)
    (htok : tokenize line = "v" :: t1 :: t2 :: rest)
    (h1 : parseFloatTok t1 = some q1) (h2 : parseFloatTok t2 = none) :
    processLine fs objName (st, mtlFile) line =
      some ({ st with positions := st.positions ++ [(q1, FQ.zero, FQ.zero)] }, mtlFile) := by
  unfold processLine
  rw [htok]
  simp [readQ, h1, h2]

/-- Witness for the amended C3 at the concrete line `v 1.0 abc 3.0`. -/
theorem C3_amended_witness :
    processLine fsMalformed "m.obj" (emptyMesh, "") "v 1.0 abc 3.0" =
      some ({ emptyMesh with positions := [(⟨10, 1⟩, FQ.zero, FQ.zero)] }, "") := by
  have h := C3_amended_partial_entry_appended fsMalformed "m.obj" emptyMesh ""
    "v 1.0 abc 3.0" "1.0" "abc" ["3.0"] ⟨10, 1⟩ (by decide) (by decide) (by decide)
  simpa using h

/-- C4 counterexample input: one position, one normal, one texture
coordinate, then a face whose position and normal references (5, i.e.
index 4 after the decrement) are far outside both pools. -/
def fsOutOfRange : TextFS :=
  fun p =>
    if p = "m.obj" then some ["v 0 0 0", "vn 0 0 1", "vt 0 0", "f 5 5 5"]
    else none

/-- C4 counterexample: the claim says an out-of-range position or normal
index fails the whole decode with `UnresolvedReference`.  On a face
referencing position/normal 5 against pools of size 1 the decode does
not fail: it returns success and appends a triangle (whose attribute
values come from undefined-behaviour `operator[]` reads, modelled by the
fixed default). -/
theorem C4_cex :
    (LoadOBJ fsOutOfRange "m.obj" emptyMesh).map
        (fun r => (r.1, r.2.triangles.length)) = some (true, 1) := by
  decide

/-- C4 amended: position and normal pool lookups in the face branch are
plain unchecked `operator[]` accesses (lines 303-322) — out of range is
undefined behaviour, not a detected error — and `LoadOBJ` has no failure
branch after a successful open: whenever the mesh file opens and the
decode runs to completion, it reports success, whatever indices the face
lines contained.  (Only the texture-coordinate index is checked, and it
is clamped, not escalated — see C5.) -/
theorem C4_amended_no_failure_path (fs : TextFS) (filename : String)
    (st : MeshState) (lines : List String) (res : Bool × MeshState)
    (hopen : fs filename = some lines)
    (hres : LoadOBJ fs filename st = some res) :
    res.1 = true := by
  unfold LoadOBJ at hres
  rw [hopen] at hres
  rcases Option.map_eq_some'.mp hres with ⟨acc, -, hacc⟩
  rw [← hacc]

/-- The completed decode of the C4 out-of-range example, for the amended
witness. -/
def c4res : Bool × MeshState :=
  (LoadOBJ fsOutOfRange "m.obj" emptyMesh).getD (false, emptyMesh)

/-- Witness for the amended C4: the out-of-range decode completes and
reports success. -/
theorem C4_amended_witness : c4res.1 = true :=
  C4_amended_no_failure_path fsOutOfRange "m.obj" emptyMesh
    ["v 0 0 0", "vn 0 0 1", "vt 0 0", "f 5 5 5"] c4res (by decide) (by decide)

section DecodeDeterminism

/-- The components of the decoder state that `LoadOBJ` clears before
parsing (lines 252-255): the three pools and the triangle list. -/
def dataOf (st : MeshState) :
    List Vec3Q × List Vec3Q × List Vec2Q × List MTriangle :=
  (st.positions, st.normals, st.texCoords, st.triangles)

/-- An MTL line only touches the material and the deferred texture path,
never the pools or the triangle list. -/
theorem processMTLLine_dataOf (p : String) (st : MeshState) (l : String) :
    dataOf (processMTLLine p st l) = dataOf st := by
  unfold processMTLLine
  dsimp only
  split
  · rfl
  · split
    · rfl
    · rfl

/-- Folding the MTL line dispatch never touches the pools or triangles. -/
theorem foldMTL_dataOf (p : String) :
    ∀ (lines : List String) (st : MeshState),
      dataOf (lines.foldl (processMTLLine p) st) = dataOf st := by
  intro lines
  induction lines with
  | nil => intro st; rfl
  | cons l ls ih =>
    intro st
    rw [List.foldl_cons, ih, processMTLLine_dataOf]

/-- `LoadMTL` never touches the pools or the triangle list. -/
theorem LoadMTL_dataOf (fs : TextFS) (p : String) (st : MeshState) :
    dataOf (LoadMTL fs p st).2 = dataOf st := by
  unfold LoadMTL
  cases fs p with
  | none => rfl
  | some lines => exact foldMTL_dataOf p lines st

/-- One decoder line step is determined, on the pool/triangle components
and the `mtlFile` variable, by those same components: the residual state
(material, deferred path, texture id) never feeds back into them. -/
theorem processLine_dataOf_congr (fs : TextFS) (objName line mf : String)
    (st1 st2 : MeshState) (hd : dataOf st1 = dataOf st2) :
    (processLine fs objName (st1, mf) line).map (fun a => (dataOf a.1, a.2)) =
      (processLine fs objName (st2, mf) line).map (fun a => (dataOf a.1, a.2)) := by
  obtain ⟨p1, n1, t1, tr1, m1, pd1, id1⟩ := st1
  obtain ⟨p2, n2, t2, tr2, m2, pd2, id2⟩ := st2
  obtain ⟨rfl, rfl, rfl, rfl⟩ :
      p1 = p2 ∧ n1 = n2 ∧ t1 = t2 ∧ tr1 = tr2 := by
    simpa [dataOf] using hd
  unfold processLine
  dsimp only
  split
  · simp only [Option.map_some', LoadMTL_dataOf]
    rfl
  · split
    · rfl
    · split
      · rfl
      · split
        · rfl
        · split
          · rcases hP1 : ParseVertexIndices t1.length
                ((readTok ⟨(tokenize line).drop 1, false⟩).1.getD "") with - | ⟨v1, vt1, vn1⟩ <;>
            rcases hP2 : ParseVertexIndices t1.length
                ((readTok (readTok ⟨(tokenize line).drop 1, false⟩).2).1.getD "") with - | ⟨v2, vt2, vn2⟩ <;>
            rcases hP3 : ParseVertexIndices t1.length
                ((readTok (readTok (readTok ⟨(tokenize line).drop 1, false⟩).2).2).1.getD "") with - | ⟨v3, vt3, vn3⟩ <;>
            rfl
          · rfl

end DecodeDeterminism

/-- Folding the line dispatch preserves the congruence: runs from two
states with equal pool/triangle components and equal `mtlFile` stay in
lock-step on those components (and abort together). -/
theorem processLines_dataOf_congr (fs : TextFS) (objName : String) :
    ∀ (lines : List String) (st1 st2 : MeshState) (mf : String),
      dataOf st1 = dataOf st2 →
      (processLines fs objName lines (st1, mf)).map (fun a => (dataOf a.1, a.2)) =
        (processLines fs objName lines (st2, mf)).map (fun a => (dataOf a.1, a.2)) := by
  intro lines
  induction lines with
  | nil =>
    intro st1 st2 mf hd
    simpa [processLines] using hd
  | cons l ls ih =>
    intro st1 st2 mf hd
    have hstep := processLine_dataOf_congr fs objName l mf st1 st2 hd
    unfold processLines
    cases h1 : processLine fs objName (st1, mf) l with
    | none =>
      cases h2 : processLine fs objName (st2, mf) l with
      | none => rfl
      | some a2 => rw [h1, h2] at hstep; simp at hstep
    | some a1 =>
      cases h2 : processLine fs objName (st2, mf) l with
      | none => rw [h1, h2] at hstep; simp at hstep
      | some a2 =>
        obtain ⟨s1, mf1⟩ := a1
        obtain ⟨s2, mf2⟩ := a2
        rw [h1, h2] at hstep
        simp only [Option.map_some', Option.some.injEq, Prod.mk.injEq] at hstep
        obtain ⟨hd2, hm2⟩ := hstep
        subst hm2
        exact ih s1 s2 mf1 hd2

/-- C10: opening the mesh file successfully makes `LoadOBJ` clear the
position, normal and texture-coordinate pools and the triangle list
before parsing (lines 252-255), so two completed decodes of the same
file content started from arbitrary decoder states — whatever was
decoded before on the same object — produce identical pools and
identical triangle lists.  (In C++, out-of-range face indices are
undefined behaviour whose junk reads this model fixes to a constant;
under that modelling the decode result is a function of the file content
alone.) -/
theorem C10_decode_independent_of_prior_state (fs : TextFS) (name : String)
    (st1 st2 r1 r2 : MeshState)
    (h1 : LoadOBJ fs name st1 = some (true, r1))
    (h2 : LoadOBJ fs name st2 = some (true, r2)) :
    r1.positions = r2.positions ∧ r1.normals = r2.normals ∧
      r1.texCoords = r2.texCoords ∧ r1.triangles = r2.triangles := by
  unfold LoadOBJ at h1 h2
  cases hfs : fs name with
  | none =>
    rw [hfs] at h1
    simp at h1
  | some lines =>
    rw [hfs] at h1 h2
    dsimp only at h1 h2
    obtain ⟨acc1, hp1, hq1⟩ := Option.map_eq_some'.mp h1
    obtain ⟨acc2, hp2, hq2⟩ := Option.map_eq_some'.mp h2
    have hr1 : acc1.1 = r1 := (Prod.ext_iff.mp hq1).2
    have hr2 : acc2.1 = r2 := (Prod.ext_iff.mp hq2).2
    have hcongr := processLines_dataOf_congr fs name lines
      { st1 with positions := [], normals := [], texCoords := [], triangles := [] }
      { st2 with positions := [], normals := [], texCoords := [], triangles := [] }
      "" rfl
    rw [hp1, hp2] at hcongr
    simp only [Option.map_some', Option.some.injEq, Prod.mk.injEq] at hcongr
    have hdata : dataOf r1 = dataOf r2 := by rw [← hr1, ← hr2]; exact hcongr.1
    exact ⟨congrArg (fun d => d.1) hdata, congrArg (fun d => d.2.1) hdata,
      congrArg (fun d => d.2.2.1) hdata, congrArg (fun d => d.2.2.2) hdata⟩

/-- C10 witness input: a small complete mesh file. -/
def fsDet : TextFS :=
  fun p =>
    if p = "m.obj" then
      some ["v 1 0 0", "v 0 1 0", "v 0 0 1", "vn 0 0 2", "vt 0.5 0.5",
            "f 1/1/1 2/1/1 3/1/1"]
    else none

/-- A decoder state full of residue from an earlier decode. -/
def dirtyMesh : MeshState :=
  { positions := [(⟨9, 0⟩, ⟨9, 0⟩, ⟨9, 0⟩)]
    normals := [(⟨1, 0⟩, FQ.zero, FQ.zero)]
    texCoords := [(⟨3, 0⟩, ⟨3, 0⟩)]
    triangles := []
    material := { name := "old", diffuseTexture := "old.ppm" }
    pendingTexturePath := "old/old.ppm", textureID := 4 }

/-- Result of decoding the witness file from a fresh state. -/
def c10resA : MeshState :=
  ((LoadOBJ fsDet "m.obj" emptyMesh).getD (false, emptyMesh)).2

/-- Result of decoding the witness file from the dirty state. -/
def c10resB : MeshState :=
  ((LoadOBJ fsDet "m.obj" dirtyMesh).getD (false, emptyMesh)).2

/-- Witness for C10: decoding the same content from the fresh and the
dirty state yields identical pools and triangles. -/
theorem C10_witness :
    c10resA.positions = c10resB.positions ∧
      c10resA.normals = c10resB.normals ∧
      c10resA.texCoords = c10resB.texCoords ∧
      c10resA.triangles = c10resB.triangles :=
  C10_decode_independent_of_prior_state fsDet "m.obj" emptyMesh dirtyMesh
    c10resA c10resB (by decide) (by decide)

/-- C7: every entry of a completed decode's normal pool comes from a `vn`
line, which the decoder pushes through `glm::normalize` (line 285,
modelled over ℝ by `realNormalize`, see its doc comment); for any entry
whose source vector is non-zero the stored normal has unit length — its
squared Euclidean norm is exactly 1 in the real model, i.e. unit within
floating-point tolerance in the C++ — whatever the magnitude of the
source line was.  Triangle vertices copy their normal values from this
pool, so every emitted normal is such an entry. -/
theorem C7_decoded_normals_unit_length (fs : TextFS) (name : String)
    (st st2 : MeshState) (_hload : LoadOBJ fs name st = some (true, st2))
    (v : Vec3Q) (_hv : v ∈ st2.normals)
    (hnz : ¬(v.1.toR = 0 ∧ v.2.1.toR = 0 ∧ v.2.2.toR = 0)) :
    norm2R (realNormalize v) = 1 := by
  clear _hload _hv
  set x := v.1.toR with hxdef
  set y := v.2.1.toR with hydef
  set z := v.2.2.toR with hzdef
  have h3 : x ≠ 0 ∨ y ≠ 0 ∨ z ≠ 0 := by tauto
  have hn : 0 < x ^ 2 + y ^ 2 + z ^ 2 := by
    rcases h3 with hx | hy | hz
    · have := pow_two_pos_of_ne_zero hx
      nlinarith [sq_nonneg y, sq_nonneg z]
    · have := pow_two_pos_of_ne_zero hy
      nlinarith [sq_nonneg x, sq_nonneg z]
    · have := pow_two_pos_of_ne_zero hz
      nlinarith [sq_nonneg x, sq_nonneg y]
  unfold realNormalize glmNormalize norm2R
  dsimp only
  have hs2 : Real.sqrt (x ^ 2 + y ^ 2 + z ^ 2) ^ 2 = x ^ 2 + y ^ 2 + z ^ 2 :=
    Real.sq_sqrt hn.le
  have hspos : 0 < Real.sqrt (x ^ 2 + y ^ 2 + z ^ 2) := Real.sqrt_pos.mpr hn
  rw [div_pow, div_pow, div_pow, div_add_div_same, div_add_div_same, hs2]
  exact div_self hn.ne'

/-- C7 witness input: a single `vn` line of magnitude 2. -/
def fsNormal : TextFS :=
  fun p => if p = "m.obj" then some ["vn 0 0 2"] else none

/-- Witness for C7: decoding `vn 0 0 2` stores the entry denoting
`(0, 0, 2)`, and its real interpretation has unit squared norm. -/
theorem C7_witness :
    norm2R (realNormalize ((⟨0, 0⟩ : FQ), (⟨0, 0⟩ : FQ), (⟨2, 0⟩ : FQ))) = 1 :=
  C7_decoded_normals_unit_length fsNormal "m.obj" emptyMesh
    { emptyMesh with normals := [(⟨0, 0⟩, ⟨0, 0⟩, ⟨2, 0⟩)] }
    (by decide) ((⟨0, 0⟩ : FQ), (⟨0, 0⟩ : FQ), (⟨2, 0⟩ : FQ))
    (by decide)
    (by
      intro h
      have := h.2.2
      norm_num [FQ.toR] at this)

section BufferLengths

/-- The flip loop only overwrites slots of the destination buffer, never
changing its size. -/
theorem flipSwapGo_length (src : List Nat) :
    ∀ (fuel i : Nat) (out : List Nat),
      (flipSwapGo src fuel i out).length = out.length := by
  intro fuel
  induction fuel with
  | zero => intro i out; rfl
  | succ m ih =>
    intro i out
    unfold flipSwapGo
    split
    · rw [ih]
      simp
    · rfl

/-- The flipped buffer has the size of the raw sample buffer (both are
`width*height*3` allocations in the C++). -/
theorem flipSwap_length (src : List Nat) : (flipSwap src).length = src.length := by
  unfold flipSwap
  rw [flipSwapGo_length]
  simp

/-- `file.read(buf, n)` always fills an `n`-byte buffer (short reads pad
with the allocation junk and fail the stream). -/
theorem psReadBytes_length (s : PStream) (n : Nat) :
    (psReadBytes s n).1.length = n := by
  unfold psReadBytes
  split
  · simp
  · split
    · simp
      omega
    · simp
      omega

/-- The ASCII sample loop always fills its `n` slots (failed extractions
store the indeterminate local, modelled 0). -/
theorem readAsciiSamples_length (n : Nat) :
    ∀ s : PStream, ((readAsciiSamples s n).1.length = n) := by
  induction n with
  | zero => intro s; rfl
  | succ m ih =>
    intro s
    unfold readAsciiSamples
    dsimp only
    rw [List.length_cons, ih]

end BufferLengths

/-- C9 input: a binary PPM declaring 2×2 pixels (12 sample bytes) whose
stream ends after 5 sample bytes — the `file.read` fails after the pixel
buffer was allocated and partially filled. -/
def truncatedPPM : List Nat :=
  [80, 54, 32, 50, 32, 50, 32, 50, 53, 53, 10] ++ [10, 11, 12, 13, 14]

/-- C9: (1) whenever `ReadImageData` returns a buffer at all, the buffer
has length exactly `width*height*3` (and that count is non-negative) —
no partially filled buffer is ever returned, because the final
`if (file.fail())` check (line 594) deletes the buffer and reports
failure whenever any stream read failed after allocation; (2) on the
concrete truncated stream above, whose pixel read fails after the
allocation, the decode indeed reports failure. -/
theorem C9_no_partial_buffer :
    (∀ (file? : Option (List Nat)) (w h : Int) (buf : List Nat),
        ReadImageData file? = some (w, h, buf) →
        0 ≤ w * h * 3 ∧ buf.length = (w * h * 3).toNat) ∧
      ReadImageData (some truncatedPPM) = none := by
  constructor
  · intro file? w h buf hres
    unfold ReadImageData at hres
    cases file? with
    | none => exact absurd hres (by simp)
    | some bytes =>
      dsimp only at hres
      split at hres
      · exact absurd hres (by simp)
      split at hres
      · exact absurd hres (by simp)
      rename_i hmagic hmax
      split at hres
      · exact absurd hres (by simp)
      rename_i htot
      split at hres <;>
        [skip; skip] <;>
        (split at hres
         · exact absurd hres (by simp)
         rw [Option.some.injEq] at hres
         obtain ⟨hw, hrest⟩ := Prod.ext_iff.mp hres
         obtain ⟨hh, hbuf⟩ := Prod.ext_iff.mp hrest
         dsimp only at hw hh hbuf
         subst hw
         subst hh
         refine ⟨not_lt.mp htot, ?_⟩
         rw [← hbuf, flipSwap_length]
         first
           | rw [psReadBytes_length]
           | rw [readAsciiSamples_length])
  · decide

/-- C9 witness input: a well-formed binary 2×2 PPM with 12 sample bytes. -/
def goodPPM : List Nat :=
  [80, 54, 32, 50, 32, 50, 32, 50, 53, 53, 10] ++
    [10, 11, 12, 13, 14, 15, 16, 17, 18, 19, 20, 21]

/-- Witness for C9: the successful decode of the 2×2 sample file returns
a buffer of length exactly `2*2*3 = 12`. -/
theorem C9_witness :
    (0 : Int) ≤ 2 * 2 * 3 ∧
      ([19, 20, 21, 16, 17, 18, 13, 14, 15, 10, 11, 12] : List Nat).length =
        ((2 : Int) * 2 * 3).toNat :=
  C9_no_partial_buffer.1 (some goodPPM) 2 2
    [19, 20, 21, 16, 17, 18, 13, 14, 15, 10, 11, 12] (by decide)

section FlipLoop

/-- Reading a slot of a one-slot overwrite: the written value at the
written position (when it exists), the old buffer elsewhere. -/
theorem getD_set_split (l : List Nat) (p j : Nat) (v : Nat) :
    (l.set p v).getD j 0 = if p = j ∧ j < l.length then v else l.getD j 0 := by
  rw [List.getD_eq_getElem?_getD, List.getD_eq_getElem?_getD, List.getElem?_set]
  by_cases hp : p = j
  · subst hp
    by_cases hl : p < l.length
    · simp [hl]
    · have : l[p]? = none := by
        rw [List.getElem?_eq_none_iff]
        omega
      simp [hl, this]
  · simp [hp]

/-- Closed form of the flip loop: starting at triple offset `i` (both the
buffer length and `i` multiples of 3, the destination sized like the
source), the loop fills every slot `j` with `j + i < length` from the
mirrored triple of the source, channels in source order, and leaves the
other slots alone. -/
theorem flipSwapGo_getD (fuel : Nat) :
    ∀ (src : List Nat) (i : Nat) (out : List Nat),
      src.length ≤ 3 * fuel + i → 3 ∣ src.length → 3 ∣ i →
      out.length = src.length →
      ∀ j, (flipSwapGo src fuel i out).getD j 0 =
        if j + i < src.length then
          src.getD (src.length - 3 - 3 * (j / 3) + j % 3) 0
        else out.getD j 0 := by
  induction fuel with
  | zero =>
    intro src i out hf h3 h3i hlen j
    rw [show flipSwapGo src 0 i out = out from rfl]
    rw [if_neg (by omega)]
  | succ m ih =>
    intro src i out hf h3 h3i hlen j
    unfold flipSwapGo
    by_cases hlt : i < src.length
    · rw [if_pos hlt]
      have hi3 : i + 3 ≤ src.length := by omega
      have hout2 :
          ((((out.set (src.length - 1 - i) (src.getD (i + 2) 0)).set
              (src.length - 1 - i - 1) (src.getD (i + 1) 0)).set
              (src.length - 1 - i - 2) (src.getD i 0))).length = src.length := by
        simp [hlen]
      rw [ih src (i + 3) _ (by omega) h3 (by omega) hout2 j]

      by_cases hj3 : j + (i + 3) < src.length
      · rw [if_pos hj3, if_pos (by omega)]
      · rw [if_neg hj3]
        by_cases hj : j + i < src.length
        · -- j lies in the triple written this iteration
          rw [if_pos hj]
          have hjr : src.length - 3 - i ≤ j ∧ j ≤ src.length - 1 - i := by omega
          rw [getD_set_split, getD_set_split, getD_set_split]
          simp only [List.length_set, hlen]
          by_cases h0 : j = src.length - 3 - i
          · rw [if_pos ⟨by omega, by omega⟩]
            have : src.length - 3 - 3 * (j / 3) + j % 3 = i := by omega
            rw [this]
          · by_cases h1 : j = src.length - 2 - i
            · rw [if_neg (by omega), if_pos ⟨by omega, by omega⟩]
              have : src.length - 3 - 3 * (j / 3) + j % 3 = i + 1 := by omega
              rw [this]
            · have h2 : j = src.length - 1 - i := by omega
              rw [if_neg (by omega), if_neg (by omega), if_pos ⟨by omega, by omega⟩]
              have : src.length - 3 - 3 * (j / 3) + j % 3 = i + 2 := by omega
              rw [this]
        · -- j above the written region: all three writes miss it
          rw [if_neg hj]
          rw [getD_set_split, getD_set_split, getD_set_split]
          simp only [List.length_set, hlen]
          rw [if_neg (by omega), if_neg (by omega), if_neg (by omega)]
    · rw [if_neg hlt]
      rw [if_neg (by omega)]

end FlipLoop

/-- C2 counterexample input: `P6 2 2 255\n` followed by the 12 sample
bytes 10..21 (input triples `(10,11,12) (13,14,15) (16,17,18) (19,20,21)`). -/
def ppm2x2 : List Nat :=
  [80, 54, 32, 50, 32, 50, 32, 50, 53, 53, 10,
   10, 11, 12, 13, 14, 15, 16, 17, 18, 19, 20, 21]

/-- C2 counterexample: the claim says input triple `i` lands at output
index `idx = 3wh - 3 - i` **with channels swapped**: `output[idx] =
in[i+2]`.  At `i = 9` (the last input triple) that predicts `output[0] =
in[11] = 21` — the first emitted triple would be the channel-swapped
last input triple `(21, 20, 19)`.  The decode actually produces
`output[0] = 19 = in[9]`: the first emitted triple is the last input
triple `(19, 20, 21)` in unchanged channel order, because the loop's
descending writes cancel the intended swap (`data[pos] = copyData[i+2]`
puts the blue sample back in the triple's blue slot). -/
theorem C2_cex :
    ReadImageData (some ppm2x2) =
      some (2, 2, [19, 20, 21, 16, 17, 18, 13, 14, 15, 10, 11, 12]) ∧
    (([19, 20, 21, 16, 17, 18, 13, 14, 15, 10, 11, 12] : List Nat).getD 0 0 =
        ([10, 11, 12, 13, 14, 15, 16, 17, 18, 19, 20, 21] : List Nat).getD 11 0 →
      False) := by
  constructor
  · decide
  · decide

/-- C2 amended: the post-processing pass writes input triple `i` (0-based
byte offset, stepping by 3) to output index `idx = total - 3 - i`, but
with the channel order **preserved**: `output[idx] = in[i]`,
`output[idx+1] = in[i+1]`, `output[idx+2] = in[i+2]`.  In particular the
first emitted triple equals the last input triple and the last emitted
triple equals the first input triple, each in unchanged RGB order — a
pure triple-granularity reversal (vertical flip for texture upload), no
blue-green-red swap. -/
theorem C2_flip_reverses_triples_channels_preserved (src : List Nat)
    (h3 : 3 ∣ src.length) (i : Nat) (h3i : 3 ∣ i) (hi : i + 3 ≤ src.length) :
    (flipSwap src).getD (src.length - 3 - i) 0 = src.getD i 0 ∧
      (flipSwap src).getD (src.length - 2 - i) 0 = src.getD (i + 1) 0 ∧
      (flipSwap src).getD (src.length - 1 - i) 0 = src.getD (i + 2) 0 := by
  unfold flipSwap
  have base := flipSwapGo_getD src.length src 0 (List.replicate src.length 0)
    (by omega) h3 (by omega) (by simp)
  refine ⟨?_, ?_, ?_⟩
  · rw [base (src.length - 3 - i), if_pos (by omega)]
    congr 1
    omega
  · rw [base (src.length - 2 - i), if_pos (by omega)]
    congr 1
    omega
  · rw [base (src.length - 1 - i), if_pos (by omega)]
    congr 1
    omega

/-- The 12 raw sample bytes of the C2 example. -/
def c2src : List Nat := [10, 11, 12, 13, 14, 15, 16, 17, 18, 19, 20, 21]

/-- Witness for the amended C2 at the first input triple of the concrete
12-byte sample buffer. -/
theorem C2_amended_witness :
    (flipSwap c2src).getD (c2src.length - 3 - 0) 0 = c2src.getD 0 0 ∧
      (flipSwap c2src).getD (c2src.length - 2 - 0) 0 = c2src.getD (0 + 1) 0 ∧
      (flipSwap c2src).getD (c2src.length - 1 - 0) 0 = c2src.getD (0 + 2) 0 :=
  C2_flip_reverses_triples_channels_preserved c2src (by decide) 0 (by decide)
    (by decide)
